import Mathlib

/-!
Verification of the guest virtual-memory introspection core
(`src/icebox/icebox/nt/nt_memory.cpp`): the x86-64 four-level page-table
walker, the synthetic page-fault injection policy, and the public
paged-memory accessors of `nt::Os`.

Machine integers are modelled as `Nat`; an 8-byte physical read yields a
value reduced modulo `2^64`.  The hypervisor transport, VCPU registers and
the process/VMA oracle are modelled as a read-only environment `Env` (the
VM is paused for the duration of each call, so repeated reads agree).
Observable side effects on the guest — physical entry reads, register
reads, the `num_page_faults_` counter, `inject_interrupt` calls,
`run_to_current` calls and zero-fills — are logged in an `Effects` record
returned next to each operation's result.
-/

/-- `PAGE_SIZE` of the guest, 4 KiB. -/
def PAGE_SIZE : Nat := 4096

/-- `mask(bits)` from the source: `~(~uint64_t(0) << bits)`, i.e. the
`bits`-bit all-ones value (the source only instantiates it at
`bits < 64`). -/
def mask (bits : Nat) : Nat := 2 ^ bits - 1

/-- `nt::Os::is_kernel_address`: `!!(ptr & 0xFFF0000000000000)`. -/
def is_kernel_address (ptr : Nat) : Bool := ptr &&& 0xFFF0000000000000 != 0

/-- Modelled from the spec: `MMPTE.u.hard.Valid` (bit 0) of the hardware
PTE layout in `nt_mmu.hpp`, which is not under `src/`; the spec fixes
`Valid` at bit 0. -/
def MMPTE.valid (e : Nat) : Bool := e.testBit 0

/-- Modelled from the spec: `MMPTE.u.hard.LargePage` (bit 7) of the
hardware PTE layout in `nt_mmu.hpp`, which is not under `src/`; the spec
fixes `LargePage` at bit 7. -/
def MMPTE.largePage (e : Nat) : Bool := e.testBit 7

/-- Modelled from the spec: `MMPTE.u.hard.PageFrameNumber` of the hardware
PTE layout in `nt_mmu.hpp`, which is not under `src/`; the spec says the
PFN is shifted left by 12 to form a byte address, i.e. it starts at bit 12
(36 bits wide in the NT hardware PTE). -/
def MMPTE.pfn (e : Nat) : Nat := (e >>> 12) &&& mask 36

/-- Modelled from the spec: `virt_t.u.f.pml4`, virtual-address bits
[47:39] (`nt_mmu.hpp` is not under `src/`; the spec fixes the decomposition). -/
def virtPml4 (v : Nat) : Nat := (v >>> 39) &&& mask 9

/-- Modelled from the spec: `virt_t.u.f.pdp`, virtual-address bits [38:30]. -/
def virtPdp (v : Nat) : Nat := (v >>> 30) &&& mask 9

/-- Modelled from the spec: `virt_t.u.f.pd`, virtual-address bits [29:21]. -/
def virtPd (v : Nat) : Nat := (v >>> 21) &&& mask 9

/-- Modelled from the spec: `virt_t.u.f.pt`, virtual-address bits [20:12]. -/
def virtPt (v : Nat) : Nat := (v >>> 12) &&& mask 9

/-- Modelled from the spec: `virt_t.u.f.offset`, virtual-address bits [11:0]. -/
def virtOffset (v : Nat) : Nat := v &&& mask 12

/-- `ntphy_t`: the walker's tri-state result record. -/
structure ntphy_t where
  ptr : Nat
  valid_page : Bool
  zero_page : Bool
deriving DecidableEq, Repr

/-- `physical_page(pfn, offset)`: resolved-normal result. -/
def physical_page (pfn offset : Nat) : ntphy_t := ⟨pfn + offset, true, false⟩

/-- `page_fault_required`: the fault-required result `{0, false, false}`. -/
def page_fault_required : ntphy_t := ⟨0, false, false⟩

/-- `proc_t`: opaque process identifier with its kernel/user DTB pair
(`dtb_t.val` is inlined as a `Nat`). -/
structure proc_t where
  id : Nat
  kdtb : Nat
  udtb : Nat
deriving DecidableEq

/-- `span_t`: the `{addr, size}` extent of a VMA. -/
structure span_t where
  addr : Nat
  size : Nat
deriving DecidableEq

/-- The registers the core reads (`reg_e::cr3`, `cr8`, `cs`). -/
inductive Reg where
  | cr3
  | cr8
  | cs
deriving DecidableEq, Repr

/-- One `state::inject_interrupt(core, vector, error_code, cr2)` call. -/
structure Injected where
  vector : Nat
  error_code : Nat
  cr2 : Nat
deriving DecidableEq, Repr

/-- The read-only world a single accessor call runs against: physical
memory (8-byte entry reads, `none` = transport failure), the VCPU
registers, the process/VMA oracle, and the success of the page-sized
transport operations.  The VM is paused, so the world is constant during
the call. -/
structure Env where
  mem : Nat → Option Nat
  cr3 : Nat
  cr8 : Nat
  cs : Nat
  vmaFind : proc_t → Nat → Option Nat
  vmaSpan : proc_t → Nat → Option span_t
  injectOk : Bool
  readPhysPageOk : Nat → Bool
  readVirtOk : Nat → Nat → Bool
  writePhysPageOk : Nat → Bool
  writeVirtOk : Nat → Nat → Bool

/-- The guest-visible side effects of one call: physical entry-read
addresses, register reads, the delta applied to `num_page_faults_`,
interrupt injections, `run_to_current` tags, and zero-fill executions. -/
structure Effects where
  reads : List Nat
  regReads : List Reg
  pfDelta : Nat
  injections : List Injected
  runs : List String
  zeroFills : Nat
deriving DecidableEq

/-- The empty effect log. -/
def Effects.nil : Effects := ⟨[], [], 0, [], [], 0⟩

/-- Prepend walker entry reads to an effect log. -/
def Effects.withReads (rds : List Nat) (e : Effects) : Effects :=
  ⟨rds ++ e.reads, e.regReads, e.pfDelta, e.injections, e.runs, e.zeroFills⟩

/-- `memory::read_physical` of one 8-byte page-table entry: the stored
64-bit little-endian word, or `none` on transport failure. -/
def read_physical (env : Env) (addr : Nat) : Option Nat :=
  (env.mem addr).map (fun v => v % 2 ^ 64)

/-- `registers::read`. -/
def registers_read (env : Env) (r : Reg) : Nat :=
  match r with
  | .cr3 => env.cr3
  | .cr8 => env.cr8
  | .cs => env.cs

/-- Address of the PML4 entry: `(dtb.val & (mask(40) << 12)) + virt.pml4 * 8`. -/
def pml4e_ptr (dtb virt : Nat) : Nat :=
  (dtb &&& (mask 40 <<< 12)) + virtPml4 virt * 8

/-- Address of the PDPT entry: `pml4e.PFN * PAGE_SIZE + virt.pdp * 8`. -/
def pdpe_ptr (pml4e virt : Nat) : Nat :=
  MMPTE.pfn pml4e * PAGE_SIZE + virtPdp virt * 8

/-- Address of the PD entry: `pdpe.PFN * PAGE_SIZE + virt.pd * 8`. -/
def pde_ptr (pdpe virt : Nat) : Nat :=
  MMPTE.pfn pdpe * PAGE_SIZE + virtPd virt * 8

/-- Address of the PT entry: `pde.PFN * PAGE_SIZE + virt.pt * 8`. -/
def pte_ptr (pde virt : Nat) : Nat :=
  MMPTE.pfn pde * PAGE_SIZE + virtPt virt * 8

/-- `read_pml4e`. -/
def read_pml4e (env : Env) (virt dtb : Nat) : Option Nat :=
  read_physical env (pml4e_ptr dtb virt)

/-- `read_pdpe`. -/
def read_pdpe (env : Env) (virt pml4e : Nat) : Option Nat :=
  read_physical env (pdpe_ptr pml4e virt)

/-- `read_pde`. -/
def read_pde (env : Env) (virt pdpe : Nat) : Option Nat :=
  read_physical env (pde_ptr pdpe virt)

/-- `read_pte`. -/
def read_pte (env : Env) (virt pde : Nat) : Option Nat :=
  read_physical env (pte_ptr pde virt)

/-- The anonymous-namespace walker `virtual_to_physical(os, ptr, proc, dtb)`.
`read_le64(&ptr)` on the little-endian host is the identity on the 64-bit
value of `ptr`, modelled as reduction modulo `2^64`.  The `proc` argument
is unused, exactly as in the source (`proc_t* /*proc*/`).  Next to the
result, the list of entry addresses read from physical memory is returned,
in issue order. -/
def virtual_to_physical (env : Env) (ptr : Nat) (proc : Option proc_t) (dtb : Nat) :
    Option ntphy_t × List Nat :=
  let virt := ptr % 2 ^ 64
  let a1 := pml4e_ptr dtb virt
  match read_pml4e env virt dtb with
  | none => (none, [a1])
  | some pml4e =>
    if !MMPTE.valid pml4e then (some page_fault_required, [a1])
    else
      let a2 := pdpe_ptr pml4e virt
      match read_pdpe env virt pml4e with
      | none => (none, [a1, a2])
      | some pdpe =>
        if !MMPTE.valid pdpe then (some page_fault_required, [a1, a2])
        else if MMPTE.largePage pdpe then
          -- 1g page
          (some (physical_page (pdpe &&& (mask 22 <<< 30)) (virt &&& mask 30)), [a1, a2])
        else
          let a3 := pde_ptr pdpe virt
          match read_pde env virt pdpe with
          | none => (none, [a1, a2, a3])
          | some pde =>
            if !MMPTE.valid pde then (some page_fault_required, [a1, a2, a3])
            else if MMPTE.largePage pde then
              -- 2mb page
              (some (physical_page (pde &&& (mask 31 <<< 21)) (virt &&& mask 21)), [a1, a2, a3])
            else
              let a4 := pte_ptr pde virt
              match read_pte env virt pde with
              | none => (none, [a1, a2, a3, a4])
              | some pte =>
                if !MMPTE.valid pte then (some page_fault_required, [a1, a2, a3, a4])
                else
                  (some (physical_page (MMPTE.pfn pte * PAGE_SIZE) (virtOffset virt)),
                   [a1, a2, a3, a4])

/-- `read_irql`: CR8 read as the current IRQL. -/
def read_irql (env : Env) : Nat := registers_read env Reg.cr8

/-- The `#PF` interrupt vector, 14. -/
def PAGE_FAULT : Nat := 14

/-- Modelled from the spec: `nt::is_user_mode(cs)` (declared in a header
not under `src/`); the spec describes it as the CPL check on the CS
selector, user mode iff the requested privilege level bits are set. -/
def is_user_mode (cs : Nat) : Bool := cs &&& 3 != 0

/-- `try_inject_page_fault(os, proc, dtb, src)`: the fault-injection
policy.  Returns the boolean result next to the guest-visible effects of
the call.  The source's `if(!proc && cr3 != dtb.val)` check is unreachable
once the null-`proc` guard above it has passed, so it disappears inside
the `some p` branch. -/
def try_inject_page_fault (env : Env) (proc : Option proc_t) (dtb src : Nat) :
    Bool × Effects :=
  -- disable pf on kernel addresses
  if is_kernel_address src then (false, Effects.nil)
  else
    match proc with
    -- disable pf without proc
    | none => (false, Effects.nil)
    | some p =>
      -- disable pf in IRQL >= dispatch
      let irql := read_irql env
      if irql ≥ 2 then (false, ⟨[], [Reg.cr8], 0, [], [], 0⟩)
      else
        -- disable pf on cr3 mismatch
        let cr3 := registers_read env Reg.cr3
        if cr3 != p.kdtb && cr3 != p.udtb then (false, ⟨[], [Reg.cr8, Reg.cr3], 0, [], [], 0⟩)
        else
          -- check if input address is valid
          match env.vmaFind p src with
          | none => (false, ⟨[], [Reg.cr8, Reg.cr3], 0, [], [], 0⟩)
          | some vma =>
            -- check size
            match env.vmaSpan p vma with
            | none => (false, ⟨[], [Reg.cr8, Reg.cr3], 0, [], [], 0⟩)
            | some vma_span =>
              if src + PAGE_SIZE > vma_span.addr + vma_span.size then
                (false, ⟨[], [Reg.cr8, Reg.cr3], 0, [], [], 0⟩)
              else
                -- ++os.num_page_faults_
                let cs := registers_read env Reg.cs
                let code := if is_user_mode cs then 2 ^ 2 else 0
                if env.injectOk then
                  (true, ⟨[], [Reg.cr8, Reg.cr3, Reg.cs], 1, [⟨PAGE_FAULT, code, src⟩],
                    ["inject_pf"], 0⟩)
                else
                  (false, ⟨[], [Reg.cr8, Reg.cr3, Reg.cs], 1, [⟨PAGE_FAULT, code, src⟩], [], 0⟩)

/-- `nt::Os::read_page(dst, ptr, proc, dtb)`.  The destination buffer is
not modelled; the page-sized transport moves are answered by the `Env`
oracles, and a zero-fill of `dst` is logged in `Effects.zeroFills`. -/
def Os_read_page (env : Env) (ptr : Nat) (proc : Option proc_t) (dtb : Nat) :
    Bool × Effects :=
  let w := virtual_to_physical env ptr proc dtb
  match w.1 with
  | none => (false, ⟨w.2, [], 0, [], [], 0⟩)
  | some nt_phy =>
    if nt_phy.zero_page then (true, ⟨w.2, [], 0, [], [], 1⟩)
    else if nt_phy.valid_page then (env.readPhysPageOk nt_phy.ptr, ⟨w.2, [], 0, [], [], 0⟩)
    else
      let r := try_inject_page_fault env proc dtb ptr
      if !r.1 then (false, Effects.withReads w.2 r.2)
      else (env.readVirtOk dtb ptr, Effects.withReads w.2 r.2)

/-- `nt::Os::write_page(ptr, src, proc, dtb)`. -/
def Os_write_page (env : Env) (ptr : Nat) (proc : Option proc_t) (dtb : Nat) :
    Bool × Effects :=
  let w := virtual_to_physical env ptr proc dtb
  match w.1 with
  | none => (false, ⟨w.2, [], 0, [], [], 0⟩)
  | some nt_phy =>
    if nt_phy.valid_page then (env.writePhysPageOk nt_phy.ptr, ⟨w.2, [], 0, [], [], 0⟩)
    else
      let r := try_inject_page_fault env proc dtb ptr
      if !r.1 then (false, Effects.withReads w.2 r.2)
      else (env.writeVirtOk dtb ptr, Effects.withReads w.2 r.2)

/-- `nt::Os::virtual_to_physical(proc, dtb, ptr)`: walk; on resolved
return the physical address; on fault-required inject, then re-walk. -/
def Os_virtual_to_physical (env : Env) (proc : Option proc_t) (dtb ptr : Nat) :
    Option Nat × Effects :=
  let w := virtual_to_physical env ptr proc dtb
  match w.1 with
  | none => (none, ⟨w.2, [], 0, [], [], 0⟩)
  | some nt_phy =>
    if nt_phy.valid_page then (some nt_phy.ptr, ⟨w.2, [], 0, [], [], 0⟩)
    else
      let r := try_inject_page_fault env proc dtb ptr
      if !r.1 then (none, Effects.withReads w.2 r.2)
      else
        let w2 := virtual_to_physical env ptr proc dtb
        match w2.1 with
        | none => (none, Effects.withReads (w.2 ++ w2.2) r.2)
        | some nt_phy2 =>
          if !nt_phy2.valid_page then (none, Effects.withReads (w.2 ++ w2.2) r.2)
          else (some nt_phy2.ptr, Effects.withReads (w.2 ++ w2.2) r.2)

/-- Physical memory of the concrete test guest: a fully valid four-level
chain under DTB `0x1000` (PFNs 2,3,4,5, like spec scenario S1), an invalid
PML4E under DTB `0x9000`, a 1 GiB LargePage PDPT entry with bit 46 set
under DTB `0xB000`, and a 2 MiB LargePage PD entry with bit 46 set under
DTB `0xE000`. -/
def memS : Nat → Option Nat := fun a =>
  if a = 0x1000 then some 0x2001
  else if a = 0x2000 then some 0x3001
  else if a = 0x3000 then some 0x4001
  else if a = 0x4000 then some 0x5001
  else if a = 0x9000 then some 0
  else if a = 0xB000 then some 0xC001
  else if a = 0xC000 then some 0x400000000081
  else if a = 0xE000 then some 0xF001
  else if a = 0xF000 then some 0x10001
  else if a = 0x10000 then some 0x400000000081
  else none

/-- The concrete test process: `kdtb = 0x5000`, `udtb = 0x6000`. -/
def procS : proc_t := ⟨1, 0x5000, 0x6000⟩

/-- The concrete test world: CR3 equals `procS.kdtb`, IRQL passive,
user-mode CS, a VMA spanning `[0, 0x100000)` around every address, and an
injection primitive that succeeds. -/
def envS : Env :=
  ⟨memS, 0x5000, 0, 0x33, fun _ _ => some 0, fun _ _ => some ⟨0, 0x100000⟩,
   true, fun _ => true, fun _ _ => true, fun _ => true, fun _ _ => true⟩
lemma mask_lt_two_pow (k : Nat) : mask k < 2 ^ k := by
  simp only [mask]
  exact Nat.sub_lt (Nat.two_pow_pos k) Nat.one_pos

lemma and_mask_lt_two_pow (v k : Nat) : v &&& mask k < 2 ^ k :=
  Nat.and_lt_two_pow v (mask_lt_two_pow k)

lemma and_shiftLeft_eq_mul (x m k : Nat) :
    x &&& (m <<< k) = 2 ^ k * ((x >>> k) &&& m) := by
  apply Nat.eq_of_testBit_eq
  intro j
  by_cases h : k ≤ j
  · simp [Nat.testBit_mul_pow_two, h, Nat.add_sub_cancel' h, Bool.and_left_comm]
  · simp [Nat.testBit_mul_pow_two, h]

lemma and_shiftLeft_add_and_mask (x m k v : Nat) :
    (x &&& (m <<< k)) + (v &&& mask k) = (x &&& (m <<< k)) ||| (v &&& mask k) := by
  rw [and_shiftLeft_eq_mul]
  exact Nat.mul_add_lt_is_or (and_mask_lt_two_pow v k) _

lemma mul_page_add_and_mask (p v : Nat) :
    p * 4096 + (v &&& mask 12) = p * 4096 ||| (v &&& mask 12) := by
  rw [Nat.mul_comm p 4096, show (4096 : Nat) = 2 ^ 12 from rfl]
  exact Nat.mul_add_lt_is_or (and_mask_lt_two_pow v 12) _

lemma walker_invalid_pml4e (env : Env) (proc : Option proc_t) (dtb va e1 : Nat)
    (hva : va < 2 ^ 64)
    (h1 : read_physical env (pml4e_ptr dtb va) = some e1)
    (hv1 : MMPTE.valid e1 = false) :
    virtual_to_physical env va proc dtb = (some page_fault_required, [pml4e_ptr dtb va]) := by
  unfold virtual_to_physical
  rw [Nat.mod_eq_of_lt hva]
  simp [read_pml4e, h1, hv1]

lemma walker_invalid_pdpe (env : Env) (proc : Option proc_t) (dtb va e1 e2 : Nat)
    (hva : va < 2 ^ 64)
    (h1 : read_physical env (pml4e_ptr dtb va) = some e1)
    (hv1 : MMPTE.valid e1 = true)
    (h2 : read_physical env (pdpe_ptr e1 va) = some e2)
    (hv2 : MMPTE.valid e2 = false) :
    virtual_to_physical env va proc dtb =
      (some page_fault_required, [pml4e_ptr dtb va, pdpe_ptr e1 va]) := by
  unfold virtual_to_physical
  rw [Nat.mod_eq_of_lt hva]
  simp [read_pml4e, read_pdpe, h1, hv1, h2, hv2]

lemma walker_pdpt_large (env : Env) (proc : Option proc_t) (dtb va e1 e2 : Nat)
    (hva : va < 2 ^ 64)
    (h1 : read_physical env (pml4e_ptr dtb va) = some e1)
    (hv1 : MMPTE.valid e1 = true)
    (h2 : read_physical env (pdpe_ptr e1 va) = some e2)
    (hv2 : MMPTE.valid e2 = true)
    (hl2 : MMPTE.largePage e2 = true) :
    virtual_to_physical env va proc dtb =
      (some ⟨(e2 &&& (mask 22 <<< 30)) + (va &&& mask 30), true, false⟩,
       [pml4e_ptr dtb va, pdpe_ptr e1 va]) := by
  unfold virtual_to_physical
  rw [Nat.mod_eq_of_lt hva]
  simp [read_pml4e, read_pdpe, h1, hv1, h2, hv2, hl2, physical_page]

lemma walker_pd_large (env : Env) (proc : Option proc_t) (dtb va e1 e2 e3 : Nat)
    (hva : va < 2 ^ 64)
    (h1 : read_physical env (pml4e_ptr dtb va) = some e1)
    (hv1 : MMPTE.valid e1 = true)
    (h2 : read_physical env (pdpe_ptr e1 va) = some e2)
    (hv2 : MMPTE.valid e2 = true)
    (hl2 : MMPTE.largePage e2 = false)
    (h3 : read_physical env (pde_ptr e2 va) = some e3)
    (hv3 : MMPTE.valid e3 = true)
    (hl3 : MMPTE.largePage e3 = true) :
    virtual_to_physical env va proc dtb =
      (some ⟨(e3 &&& (mask 31 <<< 21)) + (va &&& mask 21), true, false⟩,
       [pml4e_ptr dtb va, pdpe_ptr e1 va, pde_ptr e2 va]) := by
  unfold virtual_to_physical
  rw [Nat.mod_eq_of_lt hva]
  simp [read_pml4e, read_pdpe, read_pde, h1, hv1, h2, hv2, hl2, h3, hv3, hl3, physical_page]

lemma walker_invalid_pde (env : Env) (proc : Option proc_t) (dtb va e1 e2 e3 : Nat)
    (hva : va < 2 ^ 64)
    (h1 : read_physical env (pml4e_ptr dtb va) = some e1)
    (hv1 : MMPTE.valid e1 = true)
    (h2 : read_physical env (pdpe_ptr e1 va) = some e2)
    (hv2 : MMPTE.valid e2 = true)
    (hl2 : MMPTE.largePage e2 = false)
    (h3 : read_physical env (pde_ptr e2 va) = some e3)
    (hv3 : MMPTE.valid e3 = false) :
    virtual_to_physical env va proc dtb =
      (some page_fault_required, [pml4e_ptr dtb va, pdpe_ptr e1 va, pde_ptr e2 va]) := by
  unfold virtual_to_physical
  rw [Nat.mod_eq_of_lt hva]
  simp [read_pml4e, read_pdpe, read_pde, h1, hv1, h2, hv2, hl2, h3, hv3]

lemma walker_invalid_pte (env : Env) (proc : Option proc_t) (dtb va e1 e2 e3 e4 : Nat)
    (hva : va < 2 ^ 64)
    (h1 : read_physical env (pml4e_ptr dtb va) = some e1)
    (hv1 : MMPTE.valid e1 = true)
    (h2 : read_physical env (pdpe_ptr e1 va) = some e2)
    (hv2 : MMPTE.valid e2 = true)
    (hl2 : MMPTE.largePage e2 = false)
    (h3 : read_physical env (pde_ptr e2 va) = some e3)
    (hv3 : MMPTE.valid e3 = true)
    (hl3 : MMPTE.largePage e3 = false)
    (h4 : read_physical env (pte_ptr e3 va) = some e4)
    (hv4 : MMPTE.valid e4 = false) :
    virtual_to_physical env va proc dtb =
      (some page_fault_required,
       [pml4e_ptr dtb va, pdpe_ptr e1 va, pde_ptr e2 va, pte_ptr e3 va]) := by
  unfold virtual_to_physical
  rw [Nat.mod_eq_of_lt hva]
  simp [read_pml4e, read_pdpe, read_pde, read_pte, h1, hv1, h2, hv2, hl2, h3, hv3, hl3, h4, hv4]

lemma walker_normal (env : Env) (proc : Option proc_t) (dtb va e1 e2 e3 e4 : Nat)
    (hva : va < 2 ^ 64)
    (h1 : read_physical env (pml4e_ptr dtb va) = some e1)
    (hv1 : MMPTE.valid e1 = true)
    (h2 : read_physical env (pdpe_ptr e1 va) = some e2)
    (hv2 : MMPTE.valid e2 = true)
    (hl2 : MMPTE.largePage e2 = false)
    (h3 : read_physical env (pde_ptr e2 va) = some e3)
    (hv3 : MMPTE.valid e3 = true)
    (hl3 : MMPTE.largePage e3 = false)
    (h4 : read_physical env (pte_ptr e3 va) = some e4)
    (hv4 : MMPTE.valid e4 = true) :
    virtual_to_physical env va proc dtb =
      (some ⟨MMPTE.pfn e4 * PAGE_SIZE + (va &&& mask 12), true, false⟩,
       [pml4e_ptr dtb va, pdpe_ptr e1 va, pde_ptr e2 va, pte_ptr e3 va]) := by
  unfold virtual_to_physical
  rw [Nat.mod_eq_of_lt hva]
  simp [read_pml4e, read_pdpe, read_pde, read_pte, h1, hv1, h2, hv2, hl2, h3, hv3, hl3, h4,
    hv4, physical_page, virtOffset]

lemma walker_result_shape (env : Env) (ptr : Nat) (proc : Option proc_t) (dtb : Nat)
    (r : ntphy_t) (h : (virtual_to_physical env ptr proc dtb).1 = some r) :
    (∃ p, r = ⟨p, true, false⟩) ∨ r = ⟨0, false, false⟩ := by
  obtain ⟨rp, rv, rz⟩ := r
  unfold virtual_to_physical at h
  simp only at h
  repeat' split at h
  all_goals simp [physical_page, page_fault_required] at h
  all_goals simp_all

lemma try_inject_counter_matches_injections (env : Env) (proc : Option proc_t)
    (dtb src : Nat) :
    (try_inject_page_fault env proc dtb src).2.pfDelta =
        (try_inject_page_fault env proc dtb src).2.injections.length ∧
      (try_inject_page_fault env proc dtb src).2.injections.length ≤ 1 := by
  unfold try_inject_page_fault
  dsimp only
  repeat' split
  all_goals simp [Effects.nil]

lemma try_inject_kernel_addr (env : Env) (proc : Option proc_t) (dtb src : Nat)
    (h : is_kernel_address src = true) :
    try_inject_page_fault env proc dtb src = (false, Effects.nil) := by
  unfold try_inject_page_fault
  simp [h]

lemma try_inject_span_gate (env : Env) (p : proc_t) (dtb src vma : Nat)
    (hk : is_kernel_address src = false)
    (hirql : read_irql env < 2)
    (hcr3 : registers_read env Reg.cr3 = p.kdtb ∨ registers_read env Reg.cr3 = p.udtb)
    (hvma : env.vmaFind p src = some vma) :
    (env.vmaSpan p vma = none →
       try_inject_page_fault env (some p) dtb src =
         (false, ⟨[], [Reg.cr8, Reg.cr3], 0, [], [], 0⟩)) ∧
    (∀ sp, env.vmaSpan p vma = some sp → src + PAGE_SIZE > sp.addr + sp.size →
       try_inject_page_fault env (some p) dtb src =
         (false, ⟨[], [Reg.cr8, Reg.cr3], 0, [], [], 0⟩)) ∧
    (∀ sp, env.vmaSpan p vma = some sp → src + PAGE_SIZE ≤ sp.addr + sp.size →
       (try_inject_page_fault env (some p) dtb src).2.injections =
         [⟨PAGE_FAULT, if is_user_mode (registers_read env Reg.cs) then 2 ^ 2 else 0, src⟩] ∧
       (try_inject_page_fault env (some p) dtb src).2.pfDelta = 1) := by
  have hirql' : ¬ (2 ≤ read_irql env) := Nat.not_le.mpr hirql
  have hcr3' : (registers_read env Reg.cr3 != p.kdtb &&
      registers_read env Reg.cr3 != p.udtb) = false := by
    rcases hcr3 with h | h <;> simp [h]
  refine ⟨?_, ?_, ?_⟩
  · intro hsp
    unfold try_inject_page_fault
    dsimp only
    simp [hk, hirql', hcr3', hvma, hsp]
  · intro sp hsp hgt
    unfold try_inject_page_fault
    dsimp only
    simp [hk, hirql', hcr3', hvma, hsp, hgt]
  · intro sp hsp hle
    unfold try_inject_page_fault
    dsimp only
    simp only [hk, hirql', hcr3', hvma, hsp]
    have hle' : ¬ (src + PAGE_SIZE > sp.addr + sp.size) := Nat.not_lt.mpr hle
    simp [hle']
    split <;> simp

lemma try_inject_zero_fills (env : Env) (proc : Option proc_t) (dtb src : Nat) :
    (try_inject_page_fault env proc dtb src).2.zeroFills = 0 := by
  unfold try_inject_page_fault
  dsimp only
  repeat' split
  all_goals simp [Effects.nil]

lemma Os_vtop_no_mutation (env : Env) (proc : Option proc_t) (dtb ptr : Nat)
    (h : (virtual_to_physical env ptr proc dtb).1 ≠ some page_fault_required) :
    (Os_virtual_to_physical env proc dtb ptr).2.pfDelta = 0 ∧
      (Os_virtual_to_physical env proc dtb ptr).2.injections = [] ∧
      (Os_virtual_to_physical env proc dtb ptr).2.runs = [] := by
  unfold Os_virtual_to_physical
  dsimp only
  rcases hw : (virtual_to_physical env ptr proc dtb).1 with _ | r
  · simp [hw]
  · rcases walker_result_shape env ptr proc dtb r hw with ⟨p, rfl⟩ | rfl
    · simp [hw]
    · exact absurd hw h

lemma Os_vtop_fault_refused (env : Env) (proc : Option proc_t) (dtb ptr : Nat)
    (hf : (virtual_to_physical env ptr proc dtb).1 = some page_fault_required)
    (hrej : (try_inject_page_fault env proc dtb ptr).1 = false) :
    (Os_virtual_to_physical env proc dtb ptr).1 = none := by
  unfold Os_virtual_to_physical
  dsimp only
  rw [hf]
  simp [page_fault_required, hrej]

lemma Os_read_page_no_zero_fill (env : Env) (ptr : Nat) (proc : Option proc_t) (dtb : Nat) :
    (Os_read_page env ptr proc dtb).2.zeroFills = 0 := by
  unfold Os_read_page
  dsimp only
  rcases hw : (virtual_to_physical env ptr proc dtb).1 with _ | r
  · simp [hw]
  · rcases walker_result_shape env ptr proc dtb r hw with ⟨p, rfl⟩ | rfl
    · simp [hw]
    · simp [hw, page_fault_required, Effects.withReads, try_inject_zero_fills]
      split <;> simp [Effects.withReads, try_inject_zero_fills]

lemma Os_read_page_fault_refused (env : Env) (ptr : Nat) (proc : Option proc_t) (dtb : Nat)
    (hf : (virtual_to_physical env ptr proc dtb).1 = some page_fault_required)
    (hrej : (try_inject_page_fault env proc dtb ptr).1 = false) :
    (Os_read_page env ptr proc dtb).1 = false := by
  unfold Os_read_page
  dsimp only
  rw [hf]
  simp [page_fault_required, hrej]

lemma Os_write_page_fault_refused (env : Env) (ptr : Nat) (proc : Option proc_t) (dtb : Nat)
    (hf : (virtual_to_physical env ptr proc dtb).1 = some page_fault_required)
    (hrej : (try_inject_page_fault env proc dtb ptr).1 = false) :
    (Os_write_page env ptr proc dtb).1 = false := by
  unfold Os_write_page
  dsimp only
  rw [hf]
  simp [page_fault_required, hrej]

/-- Claim C1, counterexample: at `va = 0`, `dtb = 0x9000` (invalid PML4E)
with a known process, passive IRQL, matching CR3 and a covering VMA, the
public `nt::Os::virtual_to_physical` increments `num_page_faults_`,
injects interrupt vector 14 and invokes `run_to_current` — so it does
mutate guest state on this input, contrary to the claim. -/
theorem claim1_counterexample :
    (Os_virtual_to_physical envS (some procS) 0x9000 0).2.pfDelta = 1 ∧
      (Os_virtual_to_physical envS (some procS) 0x9000 0).2.injections = [⟨14, 4, 0⟩] ∧
      (Os_virtual_to_physical envS (some procS) 0x9000 0).2.runs = ["inject_pf"] := by
  decide

/-- Claim C1, amended: `nt::Os::virtual_to_physical` mutates guest state
only when the initial walk returns fault-required; whenever the walk does
not return fault-required it injects no interrupt, never invokes
run-to-current, and leaves the `num_page_faults_` counter unchanged. -/
theorem claim1_vtop_no_mutation_unless_fault (env : Env) (proc : Option proc_t)
    (dtb ptr : Nat)
    (h : (virtual_to_physical env ptr proc dtb).1 ≠ some page_fault_required) :
    (Os_virtual_to_physical env proc dtb ptr).2.pfDelta = 0 ∧
      (Os_virtual_to_physical env proc dtb ptr).2.injections = [] ∧
      (Os_virtual_to_physical env proc dtb ptr).2.runs = [] :=
  Os_vtop_no_mutation env proc dtb ptr h

/-- Witness for C1 at `dtb = 0x1000`, `va = 0`: the walk resolves, and the
public translation performs no injection, no run-to-current and no counter
change. -/
theorem claim1_witness :
    (Os_virtual_to_physical envS none 0x1000 0).2.pfDelta = 0 ∧
      (Os_virtual_to_physical envS none 0x1000 0).2.injections = [] ∧
      (Os_virtual_to_physical envS none 0x1000 0).2.runs = [] :=
  claim1_vtop_no_mutation_unless_fault envS none 0x1000 0 (by decide)

/-- Claim C2, counterexample: the raw entry `0x400000000081` (Valid,
LargePage, and physical-address bit 46 set) resolves to physical address
`0x400000000000` at both large-page levels, but the claim's formulas
`(raw & 0x3FFFC0000000) | (va & 0x3FFFFFFF)` and
`(raw & 0x3FFFFFE00000) | (va & 0x1FFFFF)` give `0`: the claim's hex
masks drop the entry's bits [51:46] (PDPT level) and [51:46] (PD level)
that the code's `mask(22)<<30` and `mask(31)<<21` keep. -/
theorem claim2_counterexample :
    ((virtual_to_physical envS 0 none 0xB000).1 =
        some ⟨0x400000000000, true, false⟩ ∧
      (0x400000000081 &&& 0x3FFFC0000000) ||| (0 &&& 0x3FFFFFFF) ≠ 0x400000000000) ∧
      ((virtual_to_physical envS 0 none 0xE000).1 =
        some ⟨0x400000000000, true, false⟩ ∧
      (0x400000000081 &&& 0x3FFFFFE00000) ||| (0 &&& 0x1FFFFF) ≠ 0x400000000000) := by
  decide

/-- Claim C2, amended: a walk reaching a Valid PDPT-level entry with
LargePage set resolves to `(pdpe.raw & 0xFFFFFC0000000) | (vaddr & 0x3FFFFFFF)`,
and a walk reaching a Valid PD-level entry with LargePage set resolves to
`(pde.raw & 0xFFFFFFFE00000) | (vaddr & 0x1FFFFF)`, for every possible raw
entry value (the hex constants corrected to the code's `mask(22)<<30` and
`mask(31)<<21`). -/
theorem claim2_large_page_hex_formulas (env : Env) (proc : Option proc_t) (dtb va : Nat)
    (hva : va < 2 ^ 64) :
    (∀ e1 e2, read_physical env (pml4e_ptr dtb va) = some e1 →
       MMPTE.valid e1 = true →
       read_physical env (pdpe_ptr e1 va) = some e2 →
       MMPTE.valid e2 = true → MMPTE.largePage e2 = true →
       (virtual_to_physical env va proc dtb).1 =
         some ⟨(e2 &&& 0xFFFFFC0000000) ||| (va &&& 0x3FFFFFFF), true, false⟩) ∧
    (∀ e1 e2 e3, read_physical env (pml4e_ptr dtb va) = some e1 →
       MMPTE.valid e1 = true →
       read_physical env (pdpe_ptr e1 va) = some e2 →
       MMPTE.valid e2 = true → MMPTE.largePage e2 = false →
       read_physical env (pde_ptr e2 va) = some e3 →
       MMPTE.valid e3 = true → MMPTE.largePage e3 = true →
       (virtual_to_physical env va proc dtb).1 =
         some ⟨(e3 &&& 0xFFFFFFFE00000) ||| (va &&& 0x1FFFFF), true, false⟩) := by
  constructor
  · intro e1 e2 h1 hv1 h2 hv2 hl2
    rw [walker_pdpt_large env proc dtb va e1 e2 hva h1 hv1 h2 hv2 hl2]
    rw [show (0xFFFFFC0000000 : Nat) = mask 22 <<< 30 from rfl,
      show (0x3FFFFFFF : Nat) = mask 30 from rfl, ← and_shiftLeft_add_and_mask]
  · intro e1 e2 e3 h1 hv1 h2 hv2 hl2 h3 hv3 hl3
    rw [walker_pd_large env proc dtb va e1 e2 e3 hva h1 hv1 h2 hv2 hl2 h3 hv3 hl3]
    rw [show (0xFFFFFFFE00000 : Nat) = mask 31 <<< 21 from rfl,
      show (0x1FFFFF : Nat) = mask 21 from rfl, ← and_shiftLeft_add_and_mask]

/-- Witness for C2 at the 1 GiB chain under `dtb = 0xB000`, `va = 0`. -/
theorem claim2_witness :
    (virtual_to_physical envS 0 none 0xB000).1 =
      some ⟨(0x400000000081 &&& 0xFFFFFC0000000) ||| (0 &&& 0x3FFFFFFF), true, false⟩ :=
  (claim2_large_page_hex_formulas envS none 0xB000 0 (by decide)).1 0xC001 0x400000000081
    (by decide) (by decide) (by decide) (by decide) (by decide)

/-- Claim C3: whenever all four entries on the path are Valid, neither the
PDPE nor the PDE has LargePage, and all four 8-byte reads succeed, the
walker returns resolved-normal with physical address
`pte.PageFrameNumber * 4096 | (vaddr & 0xFFF)`. -/
theorem claim3_normal_walk_formula (env : Env) (proc : Option proc_t) (dtb va : Nat)
    (hva : va < 2 ^ 64) (e1 e2 e3 e4 : Nat)
    (h1 : read_physical env (pml4e_ptr dtb va) = some e1)
    (hv1 : MMPTE.valid e1 = true)
    (h2 : read_physical env (pdpe_ptr e1 va) = some e2)
    (hv2 : MMPTE.valid e2 = true)
    (hl2 : MMPTE.largePage e2 = false)
    (h3 : read_physical env (pde_ptr e2 va) = some e3)
    (hv3 : MMPTE.valid e3 = true)
    (hl3 : MMPTE.largePage e3 = false)
    (h4 : read_physical env (pte_ptr e3 va) = some e4)
    (hv4 : MMPTE.valid e4 = true) :
    (virtual_to_physical env va proc dtb).1 =
      some ⟨MMPTE.pfn e4 * 4096 ||| (va &&& 0xFFF), true, false⟩ := by
  rw [walker_normal env proc dtb va e1 e2 e3 e4 hva h1 hv1 h2 hv2 hl2 h3 hv3 hl3 h4 hv4]
  rw [show (0xFFF : Nat) = mask 12 from rfl]
  show some (⟨MMPTE.pfn e4 * PAGE_SIZE + (va &&& mask 12), true, false⟩ : ntphy_t) = _
  rw [show PAGE_SIZE = 4096 from rfl, mul_page_add_and_mask]

/-- Witness for C3 at the fully valid chain under `dtb = 0x1000`, `va = 0`. -/
theorem claim3_witness :
    (virtual_to_physical envS 0 none 0x1000).1 =
      some ⟨MMPTE.pfn 0x5001 * 4096 ||| (0 &&& 0xFFF), true, false⟩ :=
  claim3_normal_walk_formula envS none 0x1000 0 (by decide) 0x2001 0x3001 0x4001 0x5001
    (by decide) (by decide) (by decide) (by decide) (by decide) (by decide) (by decide)
    (by decide) (by decide) (by decide)

/-- Claim C4: a Valid PDPT-level entry with LargePage set resolves to
`(pdpe.raw & (mask(22)<<30)) | (vaddr & mask(30))` after exactly the two
entry reads (no further level is read); a Valid PD-level entry with
LargePage set resolves to `(pde.raw & (mask(31)<<21)) | (vaddr & mask(21))`
after exactly the three entry reads (the PT level is never read). -/
theorem claim4_large_page_mask_formulas (env : Env) (proc : Option proc_t) (dtb va : Nat)
    (hva : va < 2 ^ 64) :
    (∀ e1 e2, read_physical env (pml4e_ptr dtb va) = some e1 →
       MMPTE.valid e1 = true →
       read_physical env (pdpe_ptr e1 va) = some e2 →
       MMPTE.valid e2 = true → MMPTE.largePage e2 = true →
       virtual_to_physical env va proc dtb =
         (some ⟨(e2 &&& (mask 22 <<< 30)) ||| (va &&& mask 30), true, false⟩,
          [pml4e_ptr dtb va, pdpe_ptr e1 va])) ∧
    (∀ e1 e2 e3, read_physical env (pml4e_ptr dtb va) = some e1 →
       MMPTE.valid e1 = true →
       read_physical env (pdpe_ptr e1 va) = some e2 →
       MMPTE.valid e2 = true → MMPTE.largePage e2 = false →
       read_physical env (pde_ptr e2 va) = some e3 →
       MMPTE.valid e3 = true → MMPTE.largePage e3 = true →
       virtual_to_physical env va proc dtb =
         (some ⟨(e3 &&& (mask 31 <<< 21)) ||| (va &&& mask 21), true, false⟩,
          [pml4e_ptr dtb va, pdpe_ptr e1 va, pde_ptr e2 va])) := by
  constructor
  · intro e1 e2 h1 hv1 h2 hv2 hl2
    rw [walker_pdpt_large env proc dtb va e1 e2 hva h1 hv1 h2 hv2 hl2,
      ← and_shiftLeft_add_and_mask]
  · intro e1 e2 e3 h1 hv1 h2 hv2 hl2 h3 hv3 hl3
    rw [walker_pd_large env proc dtb va e1 e2 e3 hva h1 hv1 h2 hv2 hl2 h3 hv3 hl3,
      ← and_shiftLeft_add_and_mask]

/-- Witness for C4 at the 2 MiB chain under `dtb = 0xE000`, `va = 0`. -/
theorem claim4_witness :
    virtual_to_physical envS 0 none 0xE000 =
      (some ⟨(0x400000000081 &&& (mask 31 <<< 21)) ||| (0 &&& mask 21), true, false⟩,
       [pml4e_ptr 0xE000 0, pdpe_ptr 0xF001 0, pde_ptr 0x10001 0]) :=
  (claim4_large_page_mask_formulas envS none 0xE000 0 (by decide)).2 0xF001 0x10001
    0x400000000081 (by decide) (by decide) (by decide) (by decide) (by decide) (by decide)
    (by decide) (by decide)

/-- Claim C5: whichever level first shows a non-Valid entry, the walker
returns fault-required and the trace of transport reads stops at that
entry — later levels are never read from physical memory. -/
theorem claim5_invalid_entry_stops_walk (env : Env) (proc : Option proc_t) (dtb va : Nat)
    (hva : va < 2 ^ 64) :
    (∀ e1, read_physical env (pml4e_ptr dtb va) = some e1 →
       MMPTE.valid e1 = false →
       virtual_to_physical env va proc dtb =
         (some page_fault_required, [pml4e_ptr dtb va])) ∧
    (∀ e1 e2, read_physical env (pml4e_ptr dtb va) = some e1 →
       MMPTE.valid e1 = true →
       read_physical env (pdpe_ptr e1 va) = some e2 →
       MMPTE.valid e2 = false →
       virtual_to_physical env va proc dtb =
         (some page_fault_required, [pml4e_ptr dtb va, pdpe_ptr e1 va])) ∧
    (∀ e1 e2 e3, read_physical env (pml4e_ptr dtb va) = some e1 →
       MMPTE.valid e1 = true →
       read_physical env (pdpe_ptr e1 va) = some e2 →
       MMPTE.valid e2 = true → MMPTE.largePage e2 = false →
       read_physical env (pde_ptr e2 va) = some e3 →
       MMPTE.valid e3 = false →
       virtual_to_physical env va proc dtb =
         (some page_fault_required, [pml4e_ptr dtb va, pdpe_ptr e1 va, pde_ptr e2 va])) ∧
    (∀ e1 e2 e3 e4, read_physical env (pml4e_ptr dtb va) = some e1 →
       MMPTE.valid e1 = true →
       read_physical env (pdpe_ptr e1 va) = some e2 →
       MMPTE.valid e2 = true → MMPTE.largePage e2 = false →
       read_physical env (pde_ptr e2 va) = some e3 →
       MMPTE.valid e3 = true → MMPTE.largePage e3 = false →
       read_physical env (pte_ptr e3 va) = some e4 →
       MMPTE.valid e4 = false →
       virtual_to_physical env va proc dtb =
         (some page_fault_required,
          [pml4e_ptr dtb va, pdpe_ptr e1 va, pde_ptr e2 va, pte_ptr e3 va])) :=
  ⟨fun e1 h1 hv1 => walker_invalid_pml4e env proc dtb va e1 hva h1 hv1,
   fun e1 e2 h1 hv1 h2 hv2 => walker_invalid_pdpe env proc dtb va e1 e2 hva h1 hv1 h2 hv2,
   fun e1 e2 e3 h1 hv1 h2 hv2 hl2 h3 hv3 =>
     walker_invalid_pde env proc dtb va e1 e2 e3 hva h1 hv1 h2 hv2 hl2 h3 hv3,
   fun e1 e2 e3 e4 h1 hv1 h2 hv2 hl2 h3 hv3 hl3 h4 hv4 =>
     walker_invalid_pte env proc dtb va e1 e2 e3 e4 hva h1 hv1 h2 hv2 hl2 h3 hv3 hl3 h4 hv4⟩

/-- Witness for C5 at `dtb = 0x9000`, `va = 0`: the PML4E is non-Valid and
the walk stops after that single read. -/
theorem claim5_witness :
    virtual_to_physical envS 0 none 0x9000 =
      (some page_fault_required, [pml4e_ptr 0x9000 0]) :=
  (claim5_invalid_entry_stops_walk envS none 0x9000 0 (by decide)).1 0 (by decide) (by decide)

/-- Claim C6: in every call to `try_inject_page_fault`, the
`num_page_faults_` delta equals the number of `inject_interrupt` calls,
and that number is at most one — so the counter is bumped exactly once iff
`inject_interrupt` is called (whether or not it succeeds), is unchanged on
every path that does not call it, and the counter only ever grows. -/
theorem claim6_counter_iff_injection (env : Env) (proc : Option proc_t) (dtb src : Nat) :
    (try_inject_page_fault env proc dtb src).2.pfDelta =
        (try_inject_page_fault env proc dtb src).2.injections.length ∧
      (try_inject_page_fault env proc dtb src).2.injections.length ≤ 1 :=
  try_inject_counter_matches_injections env proc dtb src

/-- Claim C7: for a kernel-half address (`addr & 0xFFF0000000000000 ≠ 0`),
`try_inject_page_fault` returns `false` with the empty effect log — no
register read, no injection, no counter change — and, when the walk
required a fault, every enclosing accessor operation fails. -/
theorem claim7_kernel_address_refused (env : Env) (proc : Option proc_t) (dtb ptr : Nat)
    (h : is_kernel_address ptr = true) :
    try_inject_page_fault env proc dtb ptr = (false, Effects.nil) ∧
      ((virtual_to_physical env ptr proc dtb).1 = some page_fault_required →
        (Os_virtual_to_physical env proc dtb ptr).1 = none ∧
          (Os_read_page env ptr proc dtb).1 = false ∧
          (Os_write_page env ptr proc dtb).1 = false) := by
  have hrej : (try_inject_page_fault env proc dtb ptr).1 = false := by
    rw [try_inject_kernel_addr env proc dtb ptr h]
  exact ⟨try_inject_kernel_addr env proc dtb ptr h,
    fun hf => ⟨Os_vtop_fault_refused env proc dtb ptr hf hrej,
      Os_read_page_fault_refused env ptr proc dtb hf hrej,
      Os_write_page_fault_refused env ptr proc dtb hf hrej⟩⟩

/-- Witness for C7 at the kernel address `0xFFF0000000000000` under
`dtb = 0x9000`, whose PML4 slot is the non-Valid entry: the injection is
refused with no effects and all three accessors fail. -/
theorem claim7_witness :
    try_inject_page_fault envS (some procS) 0x9000 0xFFF0000000000000 =
        (false, Effects.nil) ∧
      ((virtual_to_physical envS 0xFFF0000000000000 (some procS) 0x9000).1 =
          some page_fault_required →
        (Os_virtual_to_physical envS (some procS) 0x9000 0xFFF0000000000000).1 = none ∧
          (Os_read_page envS 0xFFF0000000000000 (some procS) 0x9000).1 = false ∧
          (Os_write_page envS 0xFFF0000000000000 (some procS) 0x9000).1 = false) :=
  claim7_kernel_address_refused envS (some procS) 0x9000 0xFFF0000000000000 (by decide)

/-- Claim C8: once the earlier predicates pass (not a kernel address,
process known, IRQL < dispatch, CR3 matches the process, VMA found),
`try_inject_page_fault` refuses — returning `false` with no counter change
and no injection — exactly when the span lookup fails or the whole page
does not fit (`addr + 4096 > vma.addr + vma.size`); and it reaches the
injection (counter bumped once, vector 14 injected) exactly when
`addr + 4096 ≤ vma.addr + vma.size`. -/
theorem claim8_vma_span_gate (env : Env) (p : proc_t) (dtb src vma : Nat)
    (hk : is_kernel_address src = false)
    (hirql : read_irql env < 2)
    (hcr3 : registers_read env Reg.cr3 = p.kdtb ∨ registers_read env Reg.cr3 = p.udtb)
    (hvma : env.vmaFind p src = some vma) :
    (env.vmaSpan p vma = none →
       try_inject_page_fault env (some p) dtb src =
         (false, ⟨[], [Reg.cr8, Reg.cr3], 0, [], [], 0⟩)) ∧
    (∀ sp, env.vmaSpan p vma = some sp → src + PAGE_SIZE > sp.addr + sp.size →
       try_inject_page_fault env (some p) dtb src =
         (false, ⟨[], [Reg.cr8, Reg.cr3], 0, [], [], 0⟩)) ∧
    (∀ sp, env.vmaSpan p vma = some sp → src + PAGE_SIZE ≤ sp.addr + sp.size →
       (try_inject_page_fault env (some p) dtb src).2.injections =
         [⟨PAGE_FAULT, if is_user_mode (registers_read env Reg.cs) then 2 ^ 2 else 0, src⟩] ∧
       (try_inject_page_fault env (some p) dtb src).2.pfDelta = 1) :=
  try_inject_span_gate env p dtb src vma hk hirql hcr3 hvma

/-- Witness for C8 at `src = 0` with the covering VMA span `[0, 0x100000)`:
the whole page fits, so the injection path is reached with one counter
bump and a single vector-14 injection. -/
theorem claim8_witness :
    (try_inject_page_fault envS (some procS) 0x9000 0).2.injections =
        [⟨PAGE_FAULT, if is_user_mode (registers_read envS Reg.cs) then 2 ^ 2 else 0, 0⟩] ∧
      (try_inject_page_fault envS (some procS) 0x9000 0).2.pfDelta = 1 :=
  (claim8_vma_span_gate envS procS 0x9000 0 0 (by decide) (by decide)
    (Or.inl (by decide)) rfl).2.2 ⟨0, 0x100000⟩ rfl (by decide)

/-- Claim C9: every walker result is either resolved-normal
`{ptr, true, false}` or fault-required `{0, false, false}` — `valid_page`
and `zero_page` are never simultaneously true and `zero_page` is false on
every reachable result — and consequently the zero-fill branch of
`nt::Os::read_page` is never executed. -/
theorem claim9_result_shape (env : Env) (ptr : Nat) (proc : Option proc_t) (dtb : Nat) :
    (∀ r, (virtual_to_physical env ptr proc dtb).1 = some r →
       (∃ p, r = ⟨p, true, false⟩) ∨ r = ⟨0, false, false⟩) ∧
      (Os_read_page env ptr proc dtb).2.zeroFills = 0 :=
  ⟨fun r h => walker_result_shape env ptr proc dtb r h,
   Os_read_page_no_zero_fill env ptr proc dtb⟩

/-- Witness for C9 at the resolved chain under `dtb = 0x1000`, `va = 0`. -/
theorem claim9_witness :
    ((∃ p, (⟨0x5000, true, false⟩ : ntphy_t) = ⟨p, true, false⟩) ∨
        (⟨0x5000, true, false⟩ : ntphy_t) = ⟨0, false, false⟩) ∧
      (Os_read_page envS 0 none 0x1000).2.zeroFills = 0 :=
  ⟨(claim9_result_shape envS 0 none 0x1000).1 ⟨0x5000, true, false⟩ (by decide),
   (claim9_result_shape envS 0 none 0x1000).2⟩

/-- Claim C10: the internal page-table walker ignores its process
argument: with the same environment, virtual address and DTB, any two
process handles (a null process included) give the same result and the
same read trace — the parameter is discarded in the source
(`proc_t* /*proc*/`), so the two calls are definitionally equal. -/
theorem claim10_proc_irrelevant (env : Env) (ptr : Nat) (p1 p2 : Option proc_t)
    (dtb : Nat) :
    virtual_to_physical env ptr p1 dtb = virtual_to_physical env ptr p2 dtb := rfl
